import Mathlib

/-!
# Verification of the DDoS protection service admission-control core

A shallow embedding of the core of the `ddos-protection-service` repository
(rate limiter, attack detector, rule engine) together with theorems settling
the specification claims about it.

Modelling conventions:
* Redis counter state is modelled as a function from key strings to optional
  values; an absent key is `none`.  Redis `INCR` on an absent key yields `1`,
  which the model reproduces via `Option.getD 0 + 1`.
* `Instant` timestamps are modelled as natural numbers; Rust's saturating
  `Instant::duration_since` is truncated natural subtraction.
* `f64`/`f32` arithmetic is modelled over `ℚ` (exact real semantics); where the
  source can produce IEEE `NaN`/`∞` (division by a zero standard deviation) the
  IEEE comparison outcome is modelled explicitly at that branch.
* Fallible Redis round-trips are modelled by explicit outcome types.
-/

namespace DdosProtection

/-! ## Shared utilities (`src/utils.rs`) -/

/-- `format_rate_limit_key` from `src/utils.rs`: `format!("{}:{}", prefix, key)`. -/
def format_rate_limit_key (pre key : String) : String := pre ++ ":" ++ key

/-! ## Rate limiter (`src/core/rate_limiter.rs`) -/

/-- `RateLimitConfig` from `src/models.rs` (fields that the limiter reads). -/
structure RateLimitConfig where
  default_limit : Nat
  burst_size : Nat
  window_seconds : Nat
  deriving DecidableEq

/-- Outcome of `check_rate_limit`: `Ok(())` is `allowed`,
`Err(RateLimitError::ExceededLimit)` is `exceededLimit`.  Redis availability is
assumed throughout a window, so the `RedisError` arm is not modelled here. -/
inductive RateLimitResult
  | allowed
  | exceededLimit
  deriving DecidableEq

/-- The Redis numeric-counter keyspace: `none` means the key is absent. -/
def RateLimitStore := String → Option Nat

/-- `RateLimiter::check_rate_limit`: `INCR` the namespaced window key (absent
key counts from 0), then return `ExceededLimit` iff the new count exceeds
`default_limit`.  The `EXPIRE` issued when the count is 1 only bounds the
window's lifetime and is not otherwise observable within a single window. -/
def check_rate_limit (cfg : RateLimitConfig) (store : RateLimitStore) (key : String) :
    RateLimitResult × RateLimitStore :=
  let window_key := format_rate_limit_key "rate_limit" key
  let count := (store window_key).getD 0 + 1
  let store' : RateLimitStore := fun k => if k = window_key then some count else store k
  (if cfg.default_limit < count then .exceededLimit else .allowed, store')

/-- `RateLimiter::reset_rate_limit`: `DEL` the namespaced window key. -/
def reset_rate_limit (store : RateLimitStore) (key : String) : RateLimitStore :=
  let window_key := format_rate_limit_key "rate_limit" key
  fun k => if k = window_key then none else store k

/-- Results of `n` consecutive `check_rate_limit` calls for the same key within
one window (no expiry in between), threading the store. -/
def callSeq (cfg : RateLimitConfig) (store : RateLimitStore) (key : String) :
    Nat → List RateLimitResult
  | 0 => []
  | n + 1 =>
      (check_rate_limit cfg store key).1 ::
        callSeq cfg (check_rate_limit cfg store key).2 key n

/-- `RateLimiter::get_remaining`: `0` when the connection fails; otherwise
`GET` the window key — a nil reply fails the `i64` conversion and returns
`default_limit` — and finally the unclamped difference `default_limit - count`. -/
def get_remaining (cfg : RateLimitConfig) (connOk : Bool) (store : RateLimitStore)
    (key : String) : Int :=
  if connOk then
    match store ("rate_limit:" ++ key) with
    | some c => (cfg.default_limit : Int) - c
    | none => (cfg.default_limit : Int)
  else 0

/-! ## Attack detector (`src/core/ddos_detector.rs`) -/

/-- `DdosDetectionConfig` from `src/core/ddos_detector.rs`.  The `f64` anomaly
threshold is modelled over `ℚ`. -/
structure DdosDetectionConfig where
  connection_rate_threshold : Nat
  connection_rate_window : Nat
  request_rate_threshold : Nat
  request_rate_window : Nat
  traffic_volume_threshold : Nat
  traffic_volume_window : Nat
  anomaly_threshold : Rat
  anomaly_window : Nat
  deriving DecidableEq

/-- Outcome of a detector check: `Ok(blocked)` or a propagated Redis error
(the `?` operator on the marker write). -/
inductive DetectOutcome
  | ok (blocked : Bool)
  | redisError
  deriving DecidableEq

/-- The pruning loop shared by the in-memory trackers: pop entries from the
front of the deque while `now.duration_since(time) > window` (saturating
subtraction, like `Instant::duration_since`). -/
def pruneWindow (now window : Nat) (dq : List Nat) : List Nat :=
  dq.dropWhile (fun t => decide (window < now - t))

/-- `DdosDetector::check_connection`: prune the per-identity timestamp deque to
the connection-rate window, append the current instant, and block iff the deque
length exceeds `connection_rate_threshold`.  On a positive detection a marker
key is written to Redis; `markerOk = false` makes that write fail, which the
source propagates with `?`.  The updated deque is the tracker state left in
`self.connection_tracker` in either case. -/
def check_connection (cfg : DdosDetectionConfig) (markerOk : Bool) (now : Nat)
    (connections : List Nat) : DetectOutcome × List Nat :=
  let updated := pruneWindow now cfg.connection_rate_window connections ++ [now]
  if cfg.connection_rate_threshold < updated.length then
    (if markerOk then (.ok true, updated) else (.redisError, updated))
  else (.ok false, updated)

/-- Mean of the `traffic_history` samples, as computed at
`src/core/ddos_detector.rs:225` (`sum as f64 / len as f64`). -/
def sampleMean (hist : List Nat) : Rat :=
  (hist.sum : Rat) / (hist.length : Rat)

/-- Sample variance over the full retained history, as computed at
`src/core/ddos_detector.rs:226-231` (squared deviations summed, divided by
`len - 1`). -/
def sampleVariance (hist : List Nat) : Rat :=
  (hist.map (fun x : Nat => ((x : Rat) - sampleMean hist) ^ 2)).sum
    / ((hist.length : Rat) - 1)

/-- The z-score numerator `*current_traffic as f64 - mean`, where
`current_traffic` is `history.last().unwrap()`. -/
def lastDeviation (hist : List Nat) : Rat :=
  ((hist.getLast?.getD 0 : Nat) : Rat) - sampleMean hist

/-- `DdosDetector::detect_anomaly`, with Redis reads available.  `history` is
the `traffic_history:{ip}` Redis list (`none` when the key is absent — the
`EXISTS` guard then returns `Ok(false)`).  The `f64` statistics are modelled
over `ℚ`: with a positive variance, `|z| > threshold` (where
`z = lastDeviation / sqrt(variance)`) is expressed square-root-free as
`threshold < 0 ∨ threshold² · variance < lastDeviation²`; with variance zero
the source divides by zero, and IEEE semantics give `z = NaN` when the
numerator is zero (any comparison with `NaN` is false) and `z = ±∞` otherwise
(its absolute value exceeds every finite threshold). -/
def detect_anomaly (cfg : DdosDetectionConfig) (history : Option (List Nat)) : Bool :=
  match history with
  | none => false
  | some hist =>
    if hist.length < 2 then false
    else if sampleVariance hist = 0 then decide (lastDeviation hist ≠ 0)
    else decide (cfg.anomaly_threshold < 0)
      || decide (cfg.anomaly_threshold ^ 2 * sampleVariance hist < lastDeviation hist ^ 2)

/-- In-memory tracker state used by `check_request`, plus the Redis traffic
history read by the nested `detect_anomaly` call. -/
structure RequestState where
  requests : List Nat
  traffic : List (Nat × Nat)
  history : Option (List Nat)

/-- `DdosDetector::check_request`, with Redis available (marker writes
succeed): prune and append to the request deque and the traffic deque, then
block if the request count exceeds `request_rate_threshold`, else if the summed
traffic volume exceeds `traffic_volume_threshold`, else defer to the nested
`detect_anomaly` call on the Redis traffic history. -/
def check_request (cfg : DdosDetectionConfig) (now size : Nat) (st : RequestState) :
    Bool × RequestState :=
  let requests := pruneWindow now cfg.request_rate_window st.requests ++ [now]
  let traffic :=
    st.traffic.dropWhile (fun e => decide (cfg.traffic_volume_window < now - e.1)) ++ [(now, size)]
  let st' : RequestState := { requests := requests, traffic := traffic, history := st.history }
  if cfg.request_rate_threshold < requests.length then (true, st')
  else if cfg.traffic_volume_threshold < (traffic.map Prod.snd).sum then (true, st')
  else (detect_anomaly cfg st.history, st')

/-- The marker-write step shared by every positive detection
(`conn.set(&key, ..).await?` followed by `conn.expire(&key, ..).await?`): a
successful write leaves the positive verdict, a failed write propagates the
Redis error through `?`. -/
def positiveOutcome (markerOk : Bool) : DetectOutcome :=
  if markerOk then .ok true else .redisError

/-- `DdosDetector::detect_anomaly` including its marker write: the verdict is
computed by `detect_anomaly`; on a positive verdict the source persists the
`ddos_anomaly` marker with `?`, so a failed write (`markerOk = false`)
surfaces as a Redis error in place of the positive verdict, while a negative
verdict never touches the store. -/
def detect_anomaly_result (cfg : DdosDetectionConfig) (markerOk : Bool)
    (history : Option (List Nat)) : DetectOutcome :=
  if detect_anomaly cfg history then positiveOutcome markerOk else .ok false

/-- `DdosDetector::check_request` including the marker writes: the same
control flow as `check_request`, with the `ddos_request` and `ddos_traffic`
markers written (with `?`) at their respective positive branches and the
nested `detect_anomaly` call's error propagated by the `?` on
`self.detect_anomaly(ip).await?`.  The in-memory trackers are updated before
any store access, so the updated state is left behind in every case. -/
def check_request_result (cfg : DdosDetectionConfig) (markerOk : Bool)
    (now size : Nat) (st : RequestState) : DetectOutcome × RequestState :=
  let requests := pruneWindow now cfg.request_rate_window st.requests ++ [now]
  let traffic :=
    st.traffic.dropWhile (fun e => decide (cfg.traffic_volume_window < now - e.1)) ++ [(now, size)]
  let st' : RequestState := { requests := requests, traffic := traffic, history := st.history }
  if cfg.request_rate_threshold < requests.length then (positiveOutcome markerOk, st')
  else if cfg.traffic_volume_threshold < (traffic.map Prod.snd).sum then
    (positiveOutcome markerOk, st')
  else
    match detect_anomaly_result cfg markerOk st.history with
    | .redisError => (.redisError, st')
    | .ok b => (.ok b, st')

/-! ## Rule engine (`src/core/rule_engine.rs`) -/

/-- `RuleCondition` from `src/core/rule_engine.rs`; the `f32` reputation score
is modelled over `ℚ`. -/
inductive RuleCondition
  | requestRate (threshold : Nat) (window_seconds : Nat)
  | trafficVolume (threshold_bytes : Nat) (window_seconds : Nat)
  | userAgent (pattern : String)
  | ipReputation (min_score : Rat)
  deriving DecidableEq

/-- `RuleAction` from `src/core/rule_engine.rs`. -/
inductive RuleAction
  | block (duration_seconds : Nat)
  | rateLimit (requests_per_second : Nat)
  | log (level message : String)
  | notify (channel message : String)
  deriving DecidableEq

/-- `Rule` from `src/core/rule_engine.rs`. -/
structure Rule where
  id : String
  name : String
  description : Option String
  conditions : List RuleCondition
  actions : List RuleAction
  priority : Int
  enabled : Bool
  deriving DecidableEq

/-- The counter keyspace read by `RuleEngine::get_counter`: `none` models a
Redis failure; an absent key is `some 0` from the caller's point of view
because `get_counter` returns `Ok(count.unwrap_or(0))`. -/
def CounterStore := String → Option Int

/-- `RuleEngine::get_ip_reputation`: the placeholder implementation always
returns `Ok(5.0)` and can never fail. -/
def get_ip_reputation (_ip : String) : Option Rat := some 5

/-- One condition evaluation inside `RuleEngine::evaluate_request`.  `none`
means the lookup errored — the source's `Err(_) => continue` skips the
condition, leaving `conditions_met` untouched.  `some b` is the evaluated
truth of the condition: a counter condition holds iff the live counter strictly
exceeds its threshold, a user-agent condition iff the pattern is a substring of
the request's user agent, and a reputation condition iff the score is not
below `min_score`. -/
def evalCond (store : CounterStore) (ip ua : String) : RuleCondition → Option Bool
  | .requestRate threshold window_seconds =>
      match store ("request_rate:" ++ ip ++ ":" ++ toString window_seconds) with
      | none => none
      | some count => some (decide ((threshold : Int) < count))
  | .trafficVolume threshold_bytes window_seconds =>
      match store ("traffic_volume:" ++ ip ++ ":" ++ toString window_seconds) with
      | none => none
      | some volume => some (decide ((threshold_bytes : Int) < volume))
  | .userAgent pattern => some (ua.containsSubstr pattern.toSubstring)
  | .ipReputation min_score =>
      match get_ip_reputation ip with
      | none => none
      | some score => some (! decide (score < min_score))

/-- The inner condition loop of `evaluate_request`: all conditions must hold
(AND), a failed lookup skips its condition (`continue`), and the first
condition that evaluates false breaks with `conditions_met = false`. -/
def conditions_met (store : CounterStore) (ip ua : String) : List RuleCondition → Bool
  | [] => true
  | c :: rest =>
      match evalCond store ip ua c with
      | none => conditions_met store ip ua rest
      | some true => conditions_met store ip ua rest
      | some false => false

/-- `RuleEngine::evaluate_request`.  The source iterates
`self.rules.read().values()` — the values of a `std::collections::HashMap` in
its unspecified iteration order; that iteration order is therefore an explicit
parameter `rulesIter` here.  Disabled rules are skipped, and the actions of
every rule whose conditions are met are appended in iteration order. -/
def evaluate_request (store : CounterStore) (rulesIter : List Rule) (ip : String)
    (request_size : Nat) (ua : String) : List RuleAction :=
  match rulesIter with
  | [] => []
  | r :: rest =>
      (if r.enabled && conditions_met store ip ua r.conditions then r.actions else [])
        ++ evaluate_request store rest ip request_size ua

/-- The two representations the source uses for the Redis key `"rules"`.
Serialized payloads are modelled at the level of the rule data they encode:
`save_rules` stores the JSON of the whole id→rule map as one string value,
while `update_rule`/`remove_rule`/`get_rule` treat the key as a sorted set
whose members are JSON strings of single rules scored by priority. -/
inductive RedisRulesVal
  | str (payload : List (String × Rule))
  | zset (members : List (Int × Rule))
  deriving DecidableEq

/-- Rule-engine state: the in-memory `RwLock<HashMap<String, Rule>>` (as an
association list) and the Redis key `"rules"` (`none` when absent). -/
structure RuleEngineState where
  mem_rules : List (String × Rule)
  store_rules : Option RedisRulesVal
  deriving DecidableEq

/-- `HashMap::insert` on the association list: replace the entry with the same
key, or append a fresh entry. -/
def insertRuleEntry (k : String) (r : Rule) : List (String × Rule) → List (String × Rule)
  | [] => [(k, r)]
  | (k', r') :: rest =>
      if k' = k then (k, r) :: rest else (k', r') :: insertRuleEntry k r rest

/-- `RuleEngine::save_rules`: serialize the in-memory map and `SET` it under
`"rules"`, unconditionally replacing the key with a string value. -/
def save_rules (s : RuleEngineState) : RuleEngineState :=
  { s with store_rules := some (.str s.mem_rules) }

/-- `RuleEngine::add_rule`: insert into the in-memory map under `rule.id`,
then persist with `save_rules` (whose result is discarded by `let _ =`). -/
def add_rule (r : Rule) (s : RuleEngineState) : RuleEngineState :=
  save_rules { s with mem_rules := insertRuleEntry r.id r s.mem_rules }

/-- `ZRANGE rules 0 -1`: an absent key yields an empty member list, a
sorted-set value yields its members in score order, and a string value fails
with `WRONGTYPE` (`none`). -/
def zrangeRules : Option RedisRulesVal → Option (List Rule)
  | none => some []
  | some (.zset members) => some (members.map Prod.snd)
  | some (.str _) => none

/-- `RuleEngine::get_rule`: read the whole `"rules"` key with `ZRANGE` (a
connection or query error yields `None`), parse each member, and return the
first rule whose id matches. -/
def get_rule (id : String) (s : RuleEngineState) : Option Rule :=
  match zrangeRules s.store_rules with
  | none => none
  | some rules => rules.find? (fun r => r.id == id)

/-- `ZREM` of the first member (in score order) whose parsed rule has the
given id — the source breaks out of its loop after that removal. -/
def zremById (id : String) : List (Int × Rule) → List (Int × Rule)
  | [] => []
  | (sc, r) :: rest => if r.id = id then rest else (sc, r) :: zremById id rest

/-- `RuleEngine::remove_rule`: `ZRANGE` the members (errors — including
`WRONGTYPE` on a string value — yield `false` with nothing removed), then
`ZREM` the first member whose parsed id matches and report whether one was
found.  The in-memory map is never touched. -/
def remove_rule (id : String) (s : RuleEngineState) : Bool × RuleEngineState :=
  match s.store_rules with
  | none => (false, s)
  | some (.str _) => (false, s)
  | some (.zset members) =>
      if (members.map Prod.snd).any (fun r => r.id == id)
      then (true, { s with store_rules := some (.zset (zremById id members)) })
      else (false, s)

/-! ## Rate limiter theorems (claims C1, C8) -/

lemma callSeq_get? (cfg : RateLimitConfig) (key : String) :
    ∀ (N i : Nat) (store : RateLimitStore), i < N →
      (callSeq cfg store key N).get? i =
        some (if cfg.default_limit <
                (store (format_rate_limit_key "rate_limit" key)).getD 0 + (i + 1)
              then RateLimitResult.exceededLimit else RateLimitResult.allowed) := by
  intro N
  induction N with
  | zero => intro i store h; omega
  | succ n ih =>
      intro i store h
      cases i with
      | zero =>
          simp [callSeq, check_rate_limit]
      | succ i =>
          have hi : i < n := by omega
          have := ih i (check_rate_limit cfg store key).2 hi
          simp only [callSeq, List.get?_cons_succ]
          rw [this]
          have hwk : ((check_rate_limit cfg store key).2
              (format_rate_limit_key "rate_limit" key)).getD 0 =
              (store (format_rate_limit_key "rate_limit" key)).getD 0 + 1 := by
            simp [check_rate_limit]
          rw [hwk]
          congr 1
          have : (store (format_rate_limit_key "rate_limit" key)).getD 0 + 1 + (i + 1)
              = (store (format_rate_limit_key "rate_limit" key)).getD 0 + (i + 1 + 1) := by
            omega
          rw [this]

/-- C1 counterexample: with a configured limit of `0`, the call right after
`reset_rate_limit` returns `ExceededLimit`, not `Allowed` — refuting the
claim's unconditional "after reset the next call returns Allowed". -/
theorem C1_reset_zero_limit_cex :
    callSeq ⟨0, 0, 60⟩ (reset_rate_limit (fun _ => some 5) "203.0.113.9") "203.0.113.9" 1
        = [RateLimitResult.exceededLimit]
    ∧ callSeq ⟨0, 0, 60⟩ (reset_rate_limit (fun _ => some 5) "203.0.113.9") "203.0.113.9" 1
        ≠ [RateLimitResult.allowed] := by
  constructor <;> decide

/-- C1 (amended): starting from an absent window key, the `n`-th of `N`
consecutive `check_rate_limit` calls within one window returns `ExceededLimit`
iff `n > default_limit` (so the first `default_limit` calls return `Allowed`);
and provided the configured limit is at least 1, the call right after
`reset_rate_limit` returns `Allowed`. -/
theorem C1_fixed_window_and_reset (cfg : RateLimitConfig) (key : String)
    (store0 store : RateLimitStore)
    (h0 : store0 (format_rate_limit_key "rate_limit" key) = none)
    (N n : Nat) (h1 : 1 ≤ n) (hn : n ≤ N) :
    ((callSeq cfg store0 key N).get? (n - 1) =
        some (if cfg.default_limit < n
              then RateLimitResult.exceededLimit else RateLimitResult.allowed))
    ∧ (1 ≤ cfg.default_limit →
        callSeq cfg (reset_rate_limit store key) key 1 = [RateLimitResult.allowed]) := by
  constructor
  · have h := callSeq_get? cfg key N (n - 1) store0 (by omega)
    have hn2 : (store0 (format_rate_limit_key "rate_limit" key)).getD 0 + (n - 1 + 1) = n := by
      rw [h0]
      simp
      omega
    rw [h, hn2]
  · intro hL
    have hwk : reset_rate_limit store key (format_rate_limit_key "rate_limit" key) = none := by
      simp [reset_rate_limit]
    simp [callSeq, check_rate_limit, hwk]
    omega

/-- C1 witness: limit 2, key "k"; the 3rd of 3 calls from a fresh window is
`ExceededLimit`, and after a reset the next call is `Allowed`. -/
theorem C1_fixed_window_and_reset_witness :
    ((fun _ => none : RateLimitStore) (format_rate_limit_key "rate_limit" "k") = none
      ∧ 1 ≤ 3 ∧ 3 ≤ 3)
    ∧ ((callSeq ⟨2, 3, 60⟩ (fun _ => none) "k" 3).get? (3 - 1) =
          some (if (⟨2, 3, 60⟩ : RateLimitConfig).default_limit < 3
                then RateLimitResult.exceededLimit else RateLimitResult.allowed))
    ∧ (1 ≤ (⟨2, 3, 60⟩ : RateLimitConfig).default_limit →
        callSeq ⟨2, 3, 60⟩ (reset_rate_limit (fun _ => some 9) "k") "k" 1
          = [RateLimitResult.allowed]) :=
  ⟨⟨rfl, by decide, by decide⟩,
    (C1_fixed_window_and_reset ⟨2, 3, 60⟩ "k" (fun _ => none) (fun _ => some 9)
      rfl 3 3 (by decide) (by decide)).1,
    (C1_fixed_window_and_reset ⟨2, 3, 60⟩ "k" (fun _ => none) (fun _ => some 9)
      rfl 3 3 (by decide) (by decide)).2⟩

/-- C8 counterexample: limit 2 with a stored count of 5 yields a remaining
quota of `-3` — negative, so the value is not clamped to `[0, limit]`. -/
theorem C8_remaining_negative_cex :
    get_remaining ⟨2, 3, 60⟩ true (fun _ => some 5) "198.51.100.7" = -3
    ∧ get_remaining ⟨2, 3, 60⟩ true (fun _ => some 5) "198.51.100.7" < 0 := by
  constructor <;> decide

/-- C8 (amended): `get_remaining` returns `default_limit - count` with no lower
clamp: the result never exceeds the configured limit (the error paths return
the full limit when the key is absent and 0 on a connection failure), but it is
negative exactly when the stored counter exceeds the limit. -/
theorem C8_remaining_unclamped (cfg : RateLimitConfig) (connOk : Bool)
    (store : RateLimitStore) (key : String) :
    get_remaining cfg connOk store key ≤ (cfg.default_limit : Int)
    ∧ (get_remaining cfg connOk store key < 0 ↔
        connOk = true ∧ ∃ c : Nat,
          store ("rate_limit:" ++ key) = some c ∧ cfg.default_limit < c) := by
  cases connOk with
  | false => simp [get_remaining]
  | true =>
      cases hc : store ("rate_limit:" ++ key) with
      | none =>
          have hg : get_remaining cfg true store key = (cfg.default_limit : Int) := by
            simp [get_remaining, hc]
          refine ⟨by rw [hg], ?_, ?_⟩
          · intro h
            rw [hg] at h
            omega
          · rintro ⟨-, c', hc', -⟩
            simp at hc'
      | some c =>
          have hg : get_remaining cfg true store key = (cfg.default_limit : Int) - c := by
            simp [get_remaining, hc]
          refine ⟨by rw [hg]; omega, ?_, ?_⟩
          · intro h
            rw [hg] at h
            exact ⟨rfl, c, rfl, by omega⟩
          · rintro ⟨-, c', hc', hlt⟩
            have hcc : c' = c := (Option.some.inj hc').symm
            subst hcc
            rw [hg]
            omega

/-! ## Attack detector theorems (claims C5, C6, C7, C9) -/

lemma dropWhile_eq_self_of_forall {α : Type} (p : α → Bool) :
    ∀ l : List α, (∀ t ∈ l, p t = false) → l.dropWhile p = l
  | [], _ => rfl
  | a :: l, h => by
      have ha : p a = false := h a (List.mem_cons_self a l)
      simp [List.dropWhile_cons, ha]

lemma check_connection_fst_markerOk (cfg : DdosDetectionConfig) (now : Nat)
    (connections : List Nat) :
    (check_connection cfg true now connections).1
      = .ok (decide (cfg.connection_rate_threshold <
          (pruneWindow now cfg.connection_rate_window connections).length + 1)) := by
  have hlen : (pruneWindow now cfg.connection_rate_window connections ++ [now]).length
      = (pruneWindow now cfg.connection_rate_window connections).length + 1 := by
    simp
  simp only [check_connection, hlen]
  split
  · next h => simp [h]
  · next h => simp [h]

lemma check_connection_snd (cfg : DdosDetectionConfig) (markerOk : Bool) (now : Nat)
    (connections : List Nat) :
    (check_connection cfg markerOk now connections).2
      = pruneWindow now cfg.connection_rate_window connections ++ [now] := by
  simp only [check_connection]
  split
  · split <;> rfl
  · rfl

lemma check_connection_fst_markerFail (cfg : DdosDetectionConfig) (now : Nat)
    (connections : List Nat) :
    (check_connection cfg false now connections).1 = DetectOutcome.redisError ↔
      cfg.connection_rate_threshold <
        (pruneWindow now cfg.connection_rate_window connections).length + 1 := by
  have hlen : (pruneWindow now cfg.connection_rate_window connections ++ [now]).length
      = (pruneWindow now cfg.connection_rate_window connections).length + 1 := by
    simp
  simp only [check_connection, hlen]
  split
  · next h => simp [h]
  · next h => simp [h]

/-- C9: with the store available, `check_connection` blocks iff, after pruning
timestamps older than the connection-rate window and appending the new one,
strictly more than `connection_rate_threshold` timestamps remain in the
per-identity deque (the just-recorded event itself counts); the deque is left
in exactly that pruned-plus-appended state, and once a call blocks, any later
call whose pruning removes no retained timestamp blocks again. -/
theorem C9_connection_window_counts (cfg : DdosDetectionConfig) (now now' : Nat)
    (connections : List Nat) :
    ((check_connection cfg true now connections).1
        = .ok (decide (cfg.connection_rate_threshold <
            (pruneWindow now cfg.connection_rate_window connections).length + 1)))
    ∧ ((check_connection cfg true now connections).2
        = pruneWindow now cfg.connection_rate_window connections ++ [now])
    ∧ ((check_connection cfg true now connections).1 = .ok true →
        (∀ t ∈ (check_connection cfg true now connections).2,
            ¬ (cfg.connection_rate_window < now' - t)) →
        (check_connection cfg true now' ((check_connection cfg true now connections).2)).1
          = .ok true) := by
  refine ⟨check_connection_fst_markerOk cfg now connections,
    check_connection_snd cfg true now connections, ?_⟩
  intro hblk hall
  rw [check_connection_fst_markerOk cfg now connections] at hblk
  have hc := of_decide_eq_true (DetectOutcome.ok.inj hblk)
  rw [check_connection_snd cfg true now connections] at hall ⊢
  set dq := pruneWindow now cfg.connection_rate_window connections ++ [now] with hdq
  have hlen2 : cfg.connection_rate_threshold < dq.length := by
    rw [hdq]
    simp
    omega
  have hprune : pruneWindow now' cfg.connection_rate_window dq = dq := by
    apply dropWhile_eq_self_of_forall
    intro t ht
    have := hall t ht
    simpa using this
  rw [check_connection_fst_markerOk cfg now' dq, hprune]
  simp only [DetectOutcome.ok.injEq, decide_eq_true_eq]
  omega

/-- C9 witness: threshold 2, window 10; three connections at instants 0, 1, 2
block the third call, and because nothing ages out by instant 3, the next call
blocks as well. -/
theorem C9_connection_window_counts_witness :
    ((check_connection ⟨2, 10, 1000, 60, 10000000, 60, 3, 300⟩ true 2 [0, 1]).1
        = DetectOutcome.ok true
      ∧ (∀ t ∈ (check_connection ⟨2, 10, 1000, 60, 10000000, 60, 3, 300⟩ true 2 [0, 1]).2,
          ¬ ((10 : Nat) < 3 - t)))
    ∧ (check_connection ⟨2, 10, 1000, 60, 10000000, 60, 3, 300⟩ true 3
        ((check_connection ⟨2, 10, 1000, 60, 10000000, 60, 3, 300⟩ true 2 [0, 1]).2)).1
        = DetectOutcome.ok true :=
  ⟨⟨by decide, by decide⟩,
    (C9_connection_window_counts ⟨2, 10, 1000, 60, 10000000, 60, 3, 300⟩ 2 3 [0, 1]).2.2
      (by decide) (by decide)⟩

lemma detect_anomaly_result_markerOk (cfg : DdosDetectionConfig)
    (history : Option (List Nat)) :
    detect_anomaly_result cfg true history = .ok (detect_anomaly cfg history) := by
  cases hd : detect_anomaly cfg history with
  | false => simp [detect_anomaly_result, hd]
  | true => simp [detect_anomaly_result, hd, positiveOutcome]

lemma detect_anomaly_result_markerFail (cfg : DdosDetectionConfig)
    (history : Option (List Nat)) :
    detect_anomaly_result cfg false history = DetectOutcome.redisError ↔
      detect_anomaly cfg history = true := by
  cases hd : detect_anomaly cfg history with
  | false => simp [detect_anomaly_result, hd]
  | true => simp [detect_anomaly_result, hd, positiveOutcome]

lemma check_request_result_fst (cfg : DdosDetectionConfig) (markerOk : Bool)
    (now size : Nat) (st : RequestState) :
    (check_request_result cfg markerOk now size st).1 =
      (if (check_request cfg now size st).1 = true then positiveOutcome markerOk
       else DetectOutcome.ok false) := by
  by_cases h1 : cfg.request_rate_threshold <
      (pruneWindow now cfg.request_rate_window st.requests ++ [now]).length
  · have hL : (check_request_result cfg markerOk now size st).1 = positiveOutcome markerOk := by
      simp only [check_request_result]
      rw [if_pos h1]
    have hR : (check_request cfg now size st).1 = true := by
      simp only [check_request]
      rw [if_pos h1]
    rw [hL, hR]
    simp
  · by_cases h2 : cfg.traffic_volume_threshold <
        ((st.traffic.dropWhile (fun e => decide (cfg.traffic_volume_window < now - e.1))
          ++ [(now, size)]).map Prod.snd).sum
    · have hL : (check_request_result cfg markerOk now size st).1
          = positiveOutcome markerOk := by
        simp only [check_request_result]
        rw [if_neg h1, if_pos h2]
      have hR : (check_request cfg now size st).1 = true := by
        simp only [check_request]
        rw [if_neg h1, if_pos h2]
      rw [hL, hR]
      simp
    · have hL : (check_request_result cfg markerOk now size st).1
          = detect_anomaly_result cfg markerOk st.history := by
        simp only [check_request_result]
        rw [if_neg h1, if_neg h2]
        cases detect_anomaly_result cfg markerOk st.history <;> rfl
      have hR : (check_request cfg now size st).1 = detect_anomaly cfg st.history := by
        simp only [check_request]
        rw [if_neg h1, if_neg h2]
      rw [hL, hR]
      cases hd : detect_anomaly cfg st.history with
      | false => simp [detect_anomaly_result, hd]
      | true => simp [detect_anomaly_result, hd]

/-- C7 counterexample, one per signal: a positive detection whose marker write
succeeds returns `Ok(true)`, but the very same positive detection returns a
Redis error when the marker write fails — for `check_connection` (threshold 0,
first connection), for `check_request` (request-rate threshold 0, first
request), and for `detect_anomaly` (threshold 1 against history `[0,0,1]`). -/
theorem C7_marker_write_failure_cex :
    ((check_connection ⟨0, 10, 1000, 60, 10000000, 60, 3, 300⟩ true 5 []).1
        = DetectOutcome.ok true
      ∧ (check_connection ⟨0, 10, 1000, 60, 10000000, 60, 3, 300⟩ false 5 []).1
        = DetectOutcome.redisError)
    ∧ ((check_request_result ⟨100, 60, 0, 60, 10, 60, 3, 300⟩ true 0 0 ⟨[], [], none⟩).1
        = DetectOutcome.ok true
      ∧ (check_request_result ⟨100, 60, 0, 60, 10, 60, 3, 300⟩ false 0 0 ⟨[], [], none⟩).1
        = DetectOutcome.redisError)
    ∧ (detect_anomaly_result ⟨100, 60, 1, 60, 10, 60, 1, 300⟩ true (some [0, 0, 1])
        = DetectOutcome.ok true
      ∧ detect_anomaly_result ⟨100, 60, 1, 60, 10, 60, 1, 300⟩ false (some [0, 0, 1])
        = DetectOutcome.redisError) := by
  have hdet : detect_anomaly ⟨100, 60, 1, 60, 10, 60, 1, 300⟩ (some [0, 0, 1]) = true := by
    simp [detect_anomaly, sampleVariance, sampleMean, lastDeviation]
    norm_num
  refine ⟨⟨by decide, by decide⟩, ⟨by decide, by decide⟩,
    by simp [detect_anomaly_result, hdet, positiveOutcome],
    by simp [detect_anomaly_result, hdet, positiveOutcome]⟩

/-- C7 (amended): across all three signals the marker write never feeds back
into the detection verdict — with the store available, `check_connection`,
`check_request` and `detect_anomaly` return `Ok` of the pure verdicts their
counters and statistics determine — but a failed marker write is propagated
with `?`, so each of the three returns a Redis error in place of its verdict
exactly when the detection is positive (negative verdicts never touch the
store and are unaffected). -/
theorem C7_marker_advisory_error_on_failure (cfg : DdosDetectionConfig)
    (now size : Nat) (connections : List Nat) (st : RequestState)
    (history : Option (List Nat)) :
    ((check_connection cfg true now connections).1
        = .ok (decide (cfg.connection_rate_threshold <
            (pruneWindow now cfg.connection_rate_window connections).length + 1)))
    ∧ ((check_connection cfg false now connections).1 = DetectOutcome.redisError ↔
        cfg.connection_rate_threshold <
          (pruneWindow now cfg.connection_rate_window connections).length + 1)
    ∧ ((check_request_result cfg true now size st).1
        = .ok ((check_request cfg now size st).1))
    ∧ ((check_request_result cfg false now size st).1 = DetectOutcome.redisError ↔
        (check_request cfg now size st).1 = true)
    ∧ (detect_anomaly_result cfg true history = .ok (detect_anomaly cfg history))
    ∧ (detect_anomaly_result cfg false history = DetectOutcome.redisError ↔
        detect_anomaly cfg history = true) := by
  refine ⟨check_connection_fst_markerOk cfg now connections,
    check_connection_fst_markerFail cfg now connections, ?_, ?_,
    detect_anomaly_result_markerOk cfg history,
    detect_anomaly_result_markerFail cfg history⟩
  · rw [check_request_result_fst]
    cases hv : (check_request cfg now size st).1 with
    | false => simp [hv]
    | true => simp [hv, positiveOutcome]
  · rw [check_request_result_fst]
    cases hv : (check_request cfg now size st).1 with
    | false => simp [hv]
    | true => simp [hv, positiveOutcome]

lemma getLast?_replicate (a : Nat) : ∀ k, 1 ≤ k → (List.replicate k a).getLast? = some a := by
  intro k
  induction k with
  | zero => omega
  | succ n ih =>
      intro _
      cases n with
      | zero => rfl
      | succ m =>
          rw [List.replicate_succ, List.replicate_succ, List.getLast?_cons_cons,
            ← List.replicate_succ]
          exact ih (by omega)

lemma sampleMean_replicate (k a : Nat) (hk : k ≠ 0) :
    sampleMean (List.replicate k a) = (a : Rat) := by
  unfold sampleMean
  rw [List.sum_replicate, List.length_replicate]
  have hk' : ((k : Nat) : Rat) ≠ 0 := Nat.cast_ne_zero.mpr hk
  push_cast [smul_eq_mul]
  field_simp

lemma sampleVariance_replicate (k a : Nat) :
    sampleVariance (List.replicate k a) = 0 := by
  cases k with
  | zero => simp [sampleVariance]
  | succ n =>
      unfold sampleVariance
      rw [sampleMean_replicate (n + 1) a (Nat.succ_ne_zero n), List.map_replicate]
      simp

lemma lastDeviation_replicate (k a : Nat) (hk : 1 ≤ k) :
    lastDeviation (List.replicate k a) = 0 := by
  unfold lastDeviation
  rw [getLast?_replicate a k hk, sampleMean_replicate k a (by omega)]
  simp

/-- C6: `detect_anomaly` returns not-anomalous when the history key is absent
or holds fewer than 2 samples, and returns not-anomalous — rather than a
division fault or a NaN/∞-propagated verdict — whenever all retained samples
are equal: the variance is then zero and the z-score is `0/0 = NaN`, whose
comparison against the threshold is false. -/
theorem C6_anomaly_small_or_constant_history (cfg : DdosDetectionConfig)
    (hist : List Nat) (k a : Nat) (hlen : hist.length < 2) :
    detect_anomaly cfg none = false
    ∧ detect_anomaly cfg (some hist) = false
    ∧ detect_anomaly cfg (some (List.replicate k a)) = false := by
  refine ⟨rfl, ?_, ?_⟩
  · simp [detect_anomaly, hlen]
  · by_cases hk : k < 2
    · simp [detect_anomaly, hk]
    · have h2 : ¬ (List.replicate k a).length < 2 := by
        simp
        omega
      simp [detect_anomaly, h2, sampleVariance_replicate,
        lastDeviation_replicate k a (by omega)]

/-- C6 witness: a single-sample history and a constant three-sample history
are both reported not-anomalous under the default detector configuration. -/
theorem C6_anomaly_small_or_constant_history_witness :
    ([7] : List Nat).length < 2
    ∧ (detect_anomaly ⟨100, 60, 1000, 60, 10000000, 60, 3, 300⟩ none = false
      ∧ detect_anomaly ⟨100, 60, 1000, 60, 10000000, 60, 3, 300⟩ (some [7]) = false
      ∧ detect_anomaly ⟨100, 60, 1000, 60, 10000000, 60, 3, 300⟩
          (some (List.replicate 3 42)) = false) :=
  ⟨by decide,
    C6_anomaly_small_or_constant_history ⟨100, 60, 1000, 60, 10000000, 60, 3, 300⟩
      [7] 3 42 (by decide)⟩

lemma check_request_fst (cfg : DdosDetectionConfig) (now size : Nat)
    (st : RequestState) :
    (check_request cfg now size st).1 =
      (decide (cfg.request_rate_threshold <
          (pruneWindow now cfg.request_rate_window st.requests ++ [now]).length)
        || decide (cfg.traffic_volume_threshold <
            ((st.traffic.dropWhile (fun e => decide (cfg.traffic_volume_window < now - e.1))
               ++ [(now, size)]).map Prod.snd).sum)
        || detect_anomaly cfg st.history) := by
  simp only [check_request]
  split
  · next h => rw [decide_eq_true h]; rfl
  · next h =>
      split
      · next h2 => rw [decide_eq_false h, decide_eq_true h2]; rfl
      · next h2 => rw [decide_eq_false h, decide_eq_false h2]; rfl

/-- C5 counterexample: neither the request-rate threshold (1 request against a
threshold of 1) nor the traffic-volume threshold (0 bytes against 10) is
exceeded, yet `check_request` returns a block verdict, because `detect_anomaly`
is invoked inside `check_request` and fires on the stored traffic history. -/
theorem C5_anomaly_inside_check_request_cex :
    ((check_request ⟨100, 60, 1, 60, 10, 60, 1, 300⟩ 0 0 ⟨[], [], some [0, 0, 1]⟩).1 = true)
    ∧ ¬ ((⟨100, 60, 1, 60, 10, 60, 1, 300⟩ : DdosDetectionConfig).request_rate_threshold
          < (pruneWindow 0 60 ([] : List Nat) ++ [0]).length)
    ∧ ¬ ((⟨100, 60, 1, 60, 10, 60, 1, 300⟩ : DdosDetectionConfig).traffic_volume_threshold
          < ((([] : List (Nat × Nat)).dropWhile (fun e : Nat × Nat => decide (60 < 0 - e.1))
              ++ [(0, 0)]).map Prod.snd).sum) := by
  have hdet : detect_anomaly ⟨100, 60, 1, 60, 10, 60, 1, 300⟩ (some [0, 0, 1]) = true := by
    simp [detect_anomaly, sampleVariance, sampleMean, lastDeviation]
    norm_num
  refine ⟨?_, by decide, by decide⟩
  rw [check_request_fst]
  simp [hdet]

/-- C5 (amended): `check_request`'s verdict is the disjunction of the
request-rate check, the traffic-volume check, and the nested `detect_anomaly`
call — anomaly detection is a third check invoked inside `check_request` after
the two threshold checks, not a separate call left to the composition layer,
so a block verdict can also arise from the anomaly signal alone. -/
theorem C5_check_request_verdict (cfg : DdosDetectionConfig) (now size : Nat)
    (st : RequestState) :
    (check_request cfg now size st).1 =
      (decide (cfg.request_rate_threshold <
          (pruneWindow now cfg.request_rate_window st.requests ++ [now]).length)
        || decide (cfg.traffic_volume_threshold <
            ((st.traffic.dropWhile (fun e => decide (cfg.traffic_volume_window < now - e.1))
               ++ [(now, size)]).map Prod.snd).sum)
        || detect_anomaly cfg st.history) :=
  check_request_fst cfg now size st

/-! ## Rule engine theorems (claims C2, C3, C4, C10) -/

/-- C2: `evaluate_request` concatenates the actions of fired rules in the
`HashMap`'s iteration order, ignoring `priority` entirely.  With two enabled,
condition-free rules of priorities 1 and 2 iterated low-priority-first (a
possible hash order, since `HashMap::values` guarantees no order), the actions
come back `[log, block]`, whereas descending-priority evaluation would have to
return `[block, log]`. -/
theorem C2_priority_ignored_hash_order :
    evaluate_request (fun _ => some 0)
        [⟨"a", "low", none, [], [RuleAction.log "info" "low fired"], 1, true⟩,
         ⟨"b", "high", none, [], [RuleAction.block 300], 2, true⟩]
        "192.0.2.1" 0 "curl/8"
      = [RuleAction.log "info" "low fired", RuleAction.block 300]
    ∧ [RuleAction.log "info" "low fired", RuleAction.block 300]
      ≠ [RuleAction.block 300, RuleAction.log "info" "low fired"] := by
  constructor <;> decide

/-- C3: the add/get round trip is broken.  Starting from a fresh engine and an
absent `"rules"` key, `add_rule` stores the rule in the in-memory map and
persists the map as a *string* value under `"rules"` (`SET`), but `get_rule`
reads `"rules"` with `ZRANGE`, which fails with `WRONGTYPE` on a string value,
so the rule just added is reported absent. -/
theorem C3_add_get_round_trip_broken :
    get_rule "rule_1"
        (add_rule ⟨"rule_1", "r", none, [], [RuleAction.block 60], 1, true⟩ ⟨[], none⟩)
      = none
    ∧ (add_rule ⟨"rule_1", "r", none, [], [RuleAction.block 60], 1, true⟩ ⟨[], none⟩).mem_rules
      = [("rule_1", ⟨"rule_1", "r", none, [], [RuleAction.block 60], 1, true⟩)] := by
  constructor <;> rfl

/-- C4 counterexample: a rule whose only condition's counter lookup fails is
*not* skipped — the `continue` skips the condition, leaving `conditions_met`
true, so the rule fires and its actions are returned instead of `[]`. -/
theorem C4_failed_condition_fires_rule_cex :
    evaluate_request (fun _ => none)
        [⟨"r1", "bad", none, [RuleCondition.requestRate 100 60],
          [RuleAction.block 300], 1, true⟩]
        "192.0.2.7" 0 "curl/8" = [RuleAction.block 300]
    ∧ [RuleAction.block 300] ≠ ([] : List RuleAction) := by
  constructor <;> decide

/-- C4 (amended): a condition whose counter or reputation lookup fails is
skipped and treated as *satisfied* (evaluation proceeds to the rule's
remaining conditions, so the rule can still fire); and the evaluation pass
never aborts — the rules after any failing rule are still evaluated, as the
pass distributes over concatenation of the iteration order. -/
theorem C4_failed_condition_satisfied_no_abort (store : CounterStore) (ip ua : String)
    (c : RuleCondition) (rest : List RuleCondition) (rules1 rules2 : List Rule)
    (n : Nat) (h : evalCond store ip ua c = none) :
    conditions_met store ip ua (c :: rest) = conditions_met store ip ua rest
    ∧ evaluate_request store (rules1 ++ rules2) ip n ua
        = evaluate_request store rules1 ip n ua ++ evaluate_request store rules2 ip n ua := by
  constructor
  · simp [conditions_met, h]
  · induction rules1 with
    | nil => simp [evaluate_request]
    | cons r rs ih => simp [evaluate_request, ih, List.append_assoc]

/-- C4 witness: with the store down, a request-rate condition is treated as
satisfied, and evaluation of a two-part rule list splits into both parts. -/
theorem C4_failed_condition_satisfied_no_abort_witness :
    evalCond (fun _ => none) "192.0.2.7" "curl/8" (RuleCondition.requestRate 100 60) = none
    ∧ (conditions_met (fun _ => none) "192.0.2.7" "curl/8"
          (RuleCondition.requestRate 100 60 :: [RuleCondition.userAgent "curl"])
        = conditions_met (fun _ => none) "192.0.2.7" "curl/8"
            [RuleCondition.userAgent "curl"]
      ∧ evaluate_request (fun _ => none)
          ([⟨"r1", "bad", none, [RuleCondition.requestRate 100 60],
              [RuleAction.block 300], 1, true⟩]
            ++ [⟨"r2", "log", none, [], [RuleAction.log "info" "hi"], 0, true⟩])
          "192.0.2.7" 0 "curl/8"
        = evaluate_request (fun _ => none)
            [⟨"r1", "bad", none, [RuleCondition.requestRate 100 60],
              [RuleAction.block 300], 1, true⟩] "192.0.2.7" 0 "curl/8"
          ++ evaluate_request (fun _ => none)
              [⟨"r2", "log", none, [], [RuleAction.log "info" "hi"], 0, true⟩]
              "192.0.2.7" 0 "curl/8") :=
  ⟨rfl,
    C4_failed_condition_satisfied_no_abort (fun _ => none) "192.0.2.7" "curl/8"
      (RuleCondition.requestRate 100 60) [RuleCondition.userAgent "curl"]
      [⟨"r1", "bad", none, [RuleCondition.requestRate 100 60],
        [RuleAction.block 300], 1, true⟩]
      [⟨"r2", "log", none, [], [RuleAction.log "info" "hi"], 0, true⟩]
      0 rfl⟩

/-- C10: the placeholder reputation lookup returns the constant score 5.0 for
every identity and never fails, so an `IpReputation{min_score}` condition
evaluates (without possibility of error) to true exactly when
`min_score ≤ 5`, independently of the identity, the store, and the request. -/
theorem C10_reputation_constant_five (store : CounterStore) (ip ua : String)
    (min_score : Rat) :
    get_ip_reputation ip = some 5
    ∧ evalCond store ip ua (.ipReputation min_score) = some (decide (min_score ≤ 5)) := by
  refine ⟨rfl, ?_⟩
  show some (! decide ((5 : Rat) < min_score)) = some (decide (min_score ≤ 5))
  rcases le_or_lt min_score 5 with h | h
  · rw [decide_eq_false (not_lt.mpr h), decide_eq_true h]
    rfl
  · rw [decide_eq_true h, decide_eq_false (not_le.mpr h)]
    rfl

end DdosProtection
